import Mathlib

/-!
Shallow embedding of the robot-hunt pursuit simulation (src/robot_hunt.py):
two robots on the X-Z plane, static square obstacles, a sampling-based
line-of-sight test, a hiding-spot heuristic, a per-tick steering update with
wholesale collision rejection, and an inter-robot collision/respawn rule.
Python float arithmetic is idealised as exact real arithmetic; numpy 2-vectors
become pairs of reals with componentwise operations written out.
-/

namespace RobotHunt

noncomputable section

open Classical

/-- A 2D point `[x, z]` on the ground plane, as the code's numpy arrays. -/
abbrev Point : Type := ℝ × ℝ

/-- `np.linalg.norm` of a 2-vector: the Euclidean norm. -/
def norm (p : Point) : ℝ := Real.sqrt (p.1 ^ 2 + p.2 ^ 2)

/-- An obstacle: center `position` and edge length `size` of its square
footprint (class `Obstacle`). -/
structure Obstacle where
  position : Point
  size : ℝ

/-- A robot: `position`, display `color`, per-tick `speed`, and square edge
`size` (class `Robot`). -/
structure Robot where
  position : Point
  color : ℝ × ℝ × ℝ
  speed : ℝ
  size : ℝ

/-- `Robot.__init__`: the constructor fixes `speed = 0.2` and `size = 2.0`. -/
def mkRobot (position : Point) (color : ℝ × ℝ × ℝ) : Robot :=
  { position := position, color := color, speed := 0.2, size := 2.0 }

/-- `collides_with_obstacles(pos, obstacles, obj_size)`: the loop returns True
as soon as one obstacle overlaps the square of edge `obj_size` centered at
`pos` on both axes (strict AABB test with half-extent sums). -/
def collides_with_obstacles (pos : Point) (obstacles : List Obstacle)
    (obj_size : ℝ) : Prop :=
  ∃ obs ∈ obstacles,
    |pos.1 - obs.position.1| < obs.size / 2 + obj_size / 2 ∧
    |pos.2 - obs.position.2| < obs.size / 2 + obj_size / 2

/-- `line_intersects_box(p1, p2, box_center, box_size)`: quick rejection when
both endpoints lie strictly beyond the same box wall, otherwise 21 samples at
parameters `i/20` for `i = 0..20` are tested for inclusive membership in the
box; the loop returns True as soon as one sample lies inside. -/
def line_intersects_box (p1 p2 box_center : Point) (box_size : ℝ) : Prop :=
  if (p1.1 < box_center.1 - box_size / 2 ∧ p2.1 < box_center.1 - box_size / 2) ∨
     (p1.1 > box_center.1 + box_size / 2 ∧ p2.1 > box_center.1 + box_size / 2) ∨
     (p1.2 < box_center.2 - box_size / 2 ∧ p2.2 < box_center.2 - box_size / 2) ∨
     (p1.2 > box_center.2 + box_size / 2 ∧ p2.2 > box_center.2 + box_size / 2)
  then False
  else ∃ i : ℕ, i ≤ 20 ∧
    box_center.1 - box_size / 2 ≤ p1.1 + (p2.1 - p1.1) * ((i : ℝ) / 20) ∧
    p1.1 + (p2.1 - p1.1) * ((i : ℝ) / 20) ≤ box_center.1 + box_size / 2 ∧
    box_center.2 - box_size / 2 ≤ p1.2 + (p2.2 - p1.2) * ((i : ℝ) / 20) ∧
    p1.2 + (p2.2 - p1.2) * ((i : ℝ) / 20) ≤ box_center.2 + box_size / 2

/-- `Robot.can_see(enemy, obstacles)`: True iff no obstacle's box intersects
the segment between the two positions. -/
def can_see (self enemy : Robot) (obstacles : List Obstacle) : Prop :=
  ∀ obs ∈ obstacles,
    ¬ line_intersects_box self.position enemy.position obs.position obs.size

/-- The candidate hiding point one obstacle contributes inside
`Robot.find_hiding_spot`: `none` when the enemy coincides with the obstacle's
center (the `norm == 0` `continue`), otherwise the obstacle center advanced by
`obs.size/2 + self.size/2 + 1.0` along the unit vector from the enemy toward
the obstacle. -/
def hiding_candidate (self enemy : Robot) (obs : Obstacle) : Option Point :=
  if norm (obs.position.1 - enemy.position.1, obs.position.2 - enemy.position.2) = 0
  then none
  else some
    (obs.position.1 + (obs.position.1 - enemy.position.1) /
        norm (obs.position.1 - enemy.position.1, obs.position.2 - enemy.position.2) *
        (obs.size / 2 + self.size / 2 + 1.0),
     obs.position.2 + (obs.position.2 - enemy.position.2) /
        norm (obs.position.1 - enemy.position.1, obs.position.2 - enemy.position.2) *
        (obs.size / 2 + self.size / 2 + 1.0))

/-- One iteration of the `find_hiding_spot` loop body: keep the running
best `(best_spot, best_distance)` pair, replacing it when this obstacle's
candidate is strictly closer to `self.position`. The Python initial state
`best_spot = None, best_distance = inf` is modelled by the `Option` being
`none` (any finite distance beats `float('inf')`). -/
def hiding_fold (self enemy : Robot) (best : Option (Point × ℝ))
    (obs : Obstacle) : Option (Point × ℝ) :=
  match hiding_candidate self enemy obs with
  | none => best
  | some c =>
    match best with
    | none => some (c, norm (c.1 - self.position.1, c.2 - self.position.2))
    | some (b, bd) =>
      if norm (c.1 - self.position.1, c.2 - self.position.2) < bd
      then some (c, norm (c.1 - self.position.1, c.2 - self.position.2))
      else some (b, bd)

/-- `Robot.find_hiding_spot(enemy, obstacles)`: fold the loop over the
obstacles and fall back to `self.position` when no candidate was produced. -/
def find_hiding_spot (self enemy : Robot) (obstacles : List Obstacle) : Point :=
  match obstacles.foldl (hiding_fold self enemy) none with
  | none => self.position
  | some (b, _) => b

/-- The target selection at the head of `Robot.update` (the spec's
`decide_target`): the enemy's position when visible, else the hiding spot. -/
def decide_target (self enemy : Robot) (obstacles : List Obstacle) : Point :=
  if can_see self enemy obstacles then enemy.position
  else find_hiding_spot self enemy obstacles

/-- The motion half of `Robot.update` (the spec's `step`): when the distance
to `target` exceeds `0.01`, advance `speed` along the normalized direction and
commit only when the candidate position clears `collides_with_obstacles`;
otherwise the robot is unchanged. -/
def step (self : Robot) (target : Point) (obstacles : List Obstacle) : Robot :=
  if norm (target.1 - self.position.1, target.2 - self.position.2) > 0.01 then
    if ¬ collides_with_obstacles
        (self.position.1 + (target.1 - self.position.1) /
            norm (target.1 - self.position.1, target.2 - self.position.2) * self.speed,
         self.position.2 + (target.2 - self.position.2) /
            norm (target.1 - self.position.1, target.2 - self.position.2) * self.speed)
        obstacles self.size
    then { self with position :=
      (self.position.1 + (target.1 - self.position.1) /
          norm (target.1 - self.position.1, target.2 - self.position.2) * self.speed,
       self.position.2 + (target.2 - self.position.2) /
          norm (target.1 - self.position.1, target.2 - self.position.2) * self.speed) }
    else self
  else self

/-- `Robot.update(enemy, obstacles)`: choose the target, then move. -/
def update (self enemy : Robot) (obstacles : List Obstacle) : Robot :=
  step self (decide_target self enemy obstacles) obstacles

/-- The movement phase of one main-loop iteration:
`robot1.update(robot2, obstacles)` followed by
`robot2.update(robot1, obstacles)` — the second call reads `robot1` as
already mutated by the first. -/
def tick_move (r1 r2 : Robot) (obstacles : List Obstacle) : Robot × Robot :=
  ((update r1 r2 obstacles), update r2 (update r1 r2 obstacles) obstacles)

/-- Modelled from the spec: the pre-tick-snapshot semantics the spec describes
for the movement phase ("updates are computed from the pre-tick snapshot of
both positions, not interleaved"), for comparison with `tick_move`. -/
def tick_move_snapshot (r1 r2 : Robot) (obstacles : List Obstacle) :
    Robot × Robot :=
  (update r1 r2 obstacles, update r2 r1 obstacles)

/-- `get_random_position()`: rejection sampling from the random stream until
a position free of obstacles (for the robot footprint `2.0`) appears; the
stream of draws is passed explicitly, together with the termination fact the
Python `while True` loop presumes. Returns the first valid draw. -/
def get_random_position (samples : ℕ → Point) (obstacles : List Obstacle)
    (h : ∃ n, ¬ collides_with_obstacles (samples n) obstacles 2.0) : Point :=
  samples (Nat.find h)

/-- The collision/respawn phase of one main-loop iteration: when the robots'
distance is under `robot1.size`, both positions are redrawn by
`get_random_position` (each call consuming its own draws), all other fields
untouched; otherwise nothing happens. -/
def handle_collision (r1 r2 : Robot) (obstacles : List Obstacle)
    (s1 s2 : ℕ → Point)
    (h1 : ∃ n, ¬ collides_with_obstacles (s1 n) obstacles 2.0)
    (h2 : ∃ n, ¬ collides_with_obstacles (s2 n) obstacles 2.0) :
    Robot × Robot :=
  if norm (r1.position.1 - r2.position.1, r1.position.2 - r2.position.2) <
      r1.size then
    ({ r1 with position := get_random_position s1 obstacles h1 },
     { r2 with position := get_random_position s2 obstacles h2 })
  else (r1, r2)

/-! Helper lemmas shared by several developments below. -/

/-- Evaluation rule for `norm` at a vector whose squared length is a perfect
square. -/
theorem norm_eval (x y r : ℝ) (hr : 0 ≤ r) (h : x ^ 2 + y ^ 2 = r ^ 2) :
    norm (x, y) = r := by
  unfold norm
  rw [h, Real.sqrt_sq hr]

/-- With no obstacles, no position collides. -/
theorem collides_nil (p : Point) (s : ℝ) :
    ¬ collides_with_obstacles p [] s := by
  simp [collides_with_obstacles]

/-- With no obstacles, visibility always holds. -/
theorem can_see_nil (r1 r2 : Robot) : can_see r1 r2 [] := by
  simp [can_see]

/-- With no obstacles, the target is the enemy's position. -/
theorem decide_target_nil (r e : Robot) : decide_target r e [] = e.position :=
  if_pos (can_see_nil r e)

/-- Reversing a segment turns the sample at parameter `(20-i)/20` into the
sample at `i/20`, coordinatewise. -/
theorem sample_swap (a b : ℝ) (i : ℕ) (h : i ≤ 20) :
    b + (a - b) * (((20 - i : ℕ) : ℝ) / 20) = a + (b - a) * ((i : ℝ) / 20) := by
  have h20 : ((20 - i : ℕ) : ℝ) = 20 - (i : ℝ) := by
    have := Nat.cast_sub (R := ℝ) h
    simpa using this
  rw [h20]
  ring

/-- The sampling-based segment/box test does not depend on the direction in
which the segment is traversed. -/
theorem line_intersects_box_symm (p1 p2 c : Point) (s : ℝ) :
    line_intersects_box p1 p2 c s ↔ line_intersects_box p2 p1 c s := by
  unfold line_intersects_box
  by_cases hQ :
      (p1.1 < c.1 - s / 2 ∧ p2.1 < c.1 - s / 2) ∨
      (p1.1 > c.1 + s / 2 ∧ p2.1 > c.1 + s / 2) ∨
      (p1.2 < c.2 - s / 2 ∧ p2.2 < c.2 - s / 2) ∨
      (p1.2 > c.2 + s / 2 ∧ p2.2 > c.2 + s / 2)
  · rw [if_pos hQ, if_pos (by tauto)]
  · rw [if_neg hQ, if_neg (by tauto)]
    constructor
    · rintro ⟨i, hi, hx1, hx2, hy1, hy2⟩
      refine ⟨20 - i, by omega, ?_, ?_, ?_, ?_⟩ <;>
        rw [sample_swap _ _ i hi]
      · exact hx1
      · exact hx2
      · exact hy1
      · exact hy2
    · rintro ⟨i, hi, hx1, hx2, hy1, hy2⟩
      refine ⟨20 - i, by omega, ?_, ?_, ?_, ?_⟩ <;>
        rw [sample_swap _ _ i hi]
      · exact hx1
      · exact hx2
      · exact hy1
      · exact hy2

/-! Claim theorems. -/

/-- C4: `can_see` is symmetric in the two robots: both the quick-rejection
test and the set of 21 segment samples are invariant under swapping the
endpoints, so visibility from `r1` toward `r2` coincides with visibility from
`r2` toward `r1`, for every obstacle list. -/
theorem can_see_symm (r1 r2 : Robot) (obstacles : List Obstacle) :
    can_see r1 r2 obstacles ↔ can_see r2 r1 obstacles := by
  unfold can_see
  constructor <;> intro hc obs hm
  · exact fun hl => hc obs hm ((line_intersects_box_symm _ _ _ _).mpr hl)
  · exact fun hl => hc obs hm ((line_intersects_box_symm _ _ _ _).mp hl)

/-- C10: a robot whose position lies within the closed footprint of some
obstacle in the list can never see any opponent: the quick rejection cannot
fire for that obstacle and the `t = 0` sample already lies in the box. -/
theorem inside_obstacle_never_sees (r1 r2 : Robot) (obstacles : List Obstacle)
    (obs : Obstacle) (hmem : obs ∈ obstacles)
    (hx1 : obs.position.1 - obs.size / 2 ≤ r1.position.1)
    (hx2 : r1.position.1 ≤ obs.position.1 + obs.size / 2)
    (hz1 : obs.position.2 - obs.size / 2 ≤ r1.position.2)
    (hz2 : r1.position.2 ≤ obs.position.2 + obs.size / 2) :
    ¬ can_see r1 r2 obstacles := by
  intro hc
  apply hc obs hmem
  unfold line_intersects_box
  have hQ : ¬ ((r1.position.1 < obs.position.1 - obs.size / 2 ∧
        r2.position.1 < obs.position.1 - obs.size / 2) ∨
      (r1.position.1 > obs.position.1 + obs.size / 2 ∧
        r2.position.1 > obs.position.1 + obs.size / 2) ∨
      (r1.position.2 < obs.position.2 - obs.size / 2 ∧
        r2.position.2 < obs.position.2 - obs.size / 2) ∨
      (r1.position.2 > obs.position.2 + obs.size / 2 ∧
        r2.position.2 > obs.position.2 + obs.size / 2)) := by
    rintro (⟨h1, -⟩ | ⟨h1, -⟩ | ⟨h1, -⟩ | ⟨h1, -⟩) <;> linarith
  rw [if_neg hQ]
  refine ⟨0, by norm_num, ?_, ?_, ?_, ?_⟩ <;> simp <;> linarith

/-- Evaluation rule for `hiding_candidate` once the enemy-to-obstacle
distance is known to be a positive value `n`. -/
theorem hiding_candidate_eval (self enemy : Robot) (obs : Obstacle) (n : ℝ)
    (hn : 0 < n)
    (h : norm (obs.position.1 - enemy.position.1,
               obs.position.2 - enemy.position.2) = n) :
    hiding_candidate self enemy obs = some
      (obs.position.1 + (obs.position.1 - enemy.position.1) / n *
          (obs.size / 2 + self.size / 2 + 1.0),
       obs.position.2 + (obs.position.2 - enemy.position.2) / n *
          (obs.size / 2 + self.size / 2 + 1.0)) := by
  unfold hiding_candidate
  rw [h, if_neg (ne_of_gt hn)]

/-- With a single obstacle whose candidate exists, `find_hiding_spot`
returns that candidate. -/
theorem find_hiding_spot_singleton (self enemy : Robot) (obs : Obstacle)
    (c : Point) (h : hiding_candidate self enemy obs = some c) :
    find_hiding_spot self enemy [obs] = c := by
  unfold find_hiding_spot
  simp [List.foldl, hiding_fold, h]

/-- C5: with one obstacle of edge 4 centered at `(5,0)`, a robot at `(0,0)`
cannot see the opponent at `(10,0)` (the segment crosses the obstacle), and
its hiding spot is exactly `(1,0)`: the obstacle's center advanced by
`4/2 + 2/2 + 1 = 4` along the unit vector from the opponent, i.e. on the ray
from `(10,0)` through `(5,0)`. -/
theorem scenario_one_obstacle_hiding :
    ¬ can_see (mkRobot (0, 0) (1, 0, 0)) (mkRobot (10, 0) (0, 0, 1))
        [⟨((5 : ℝ), (0 : ℝ)), 4⟩] ∧
    find_hiding_spot (mkRobot (0, 0) (1, 0, 0)) (mkRobot (10, 0) (0, 0, 1))
        [⟨((5 : ℝ), (0 : ℝ)), 4⟩] = ((1 : ℝ), (0 : ℝ)) := by
  constructor
  · intro hc
    refine hc ⟨((5 : ℝ), (0 : ℝ)), 4⟩ (by simp) ?_
    unfold line_intersects_box
    rw [if_neg (by norm_num [mkRobot])]
    refine ⟨6, by norm_num, ?_, ?_, ?_, ?_⟩ <;> norm_num [mkRobot]
  · have h5 : norm ((⟨((5 : ℝ), (0 : ℝ)), 4⟩ : Obstacle).position.1 -
          (mkRobot (10, 0) (0, 0, 1)).position.1,
        (⟨((5 : ℝ), (0 : ℝ)), 4⟩ : Obstacle).position.2 -
          (mkRobot (10, 0) (0, 0, 1)).position.2) = 5 := by
      have e : ((⟨((5 : ℝ), (0 : ℝ)), 4⟩ : Obstacle).position.1 -
            (mkRobot (10, 0) (0, 0, 1)).position.1,
          (⟨((5 : ℝ), (0 : ℝ)), 4⟩ : Obstacle).position.2 -
            (mkRobot (10, 0) (0, 0, 1)).position.2) = ((-5 : ℝ), (0 : ℝ)) := by
        norm_num [mkRobot]
      rw [e]
      exact norm_eval (-5) 0 5 (by norm_num) (by norm_num)
    rw [find_hiding_spot_singleton (mkRobot (0, 0) (1, 0, 0))
      (mkRobot (10, 0) (0, 0, 1)) ⟨((5 : ℝ), (0 : ℝ)), 4⟩ _
      (hiding_candidate_eval (mkRobot (0, 0) (1, 0, 0))
        (mkRobot (10, 0) (0, 0, 1)) ⟨((5 : ℝ), (0 : ℝ)), 4⟩ 5 (by norm_num) h5)]
    norm_num [mkRobot]

/-- Folding the hiding-spot loop either keeps the accumulator or produces a
pair whose point is the candidate of some obstacle of the traversed list. -/
theorem hiding_fold_result (self enemy : Robot) (l : List Obstacle) :
    ∀ acc : Option (Point × ℝ),
      l.foldl (hiding_fold self enemy) acc = acc ∨
      ∃ p d, l.foldl (hiding_fold self enemy) acc = some (p, d) ∧
        ∃ obs ∈ l, hiding_candidate self enemy obs = some p := by
  induction l with
  | nil => exact fun acc => Or.inl rfl
  | cons o t ih =>
    intro acc
    rw [List.foldl_cons]
    rcases ih (hiding_fold self enemy acc o) with h | ⟨p, d, heq, obs, hobs, hc⟩
    · rw [h]
      unfold hiding_fold
      cases hc0 : hiding_candidate self enemy o with
      | none => exact Or.inl rfl
      | some c =>
        cases acc with
        | none =>
          exact Or.inr ⟨c, _, rfl, o, List.mem_cons_self o t, hc0⟩
        | some bd' =>
          rcases bd' with ⟨b, bd⟩
          dsimp only
          by_cases hlt :
              norm (c.1 - self.position.1, c.2 - self.position.2) < bd
          · rw [if_pos hlt]
            exact Or.inr ⟨c, _, rfl, o, List.mem_cons_self o t, hc0⟩
          · rw [if_neg hlt]
            exact Or.inl rfl
    · exact Or.inr ⟨p, d, heq, obs, List.mem_cons_of_mem o hobs, hc⟩

/-- C1 (amended): the point returned by `find_hiding_spot` is either the
robot's own position (the fallback, e.g. when every obstacle's center
coincides with the opponent's position) or the candidate of some obstacle of
the list — that obstacle's center advanced by `obs.size/2 + self.size/2 + 1`
along the unit vector from the opponent toward the center. No clearance
against `collides_with_obstacles` is guaranteed for that point. -/
theorem find_hiding_spot_candidate_or_hold (self enemy : Robot)
    (obstacles : List Obstacle) :
    find_hiding_spot self enemy obstacles = self.position ∨
    ∃ obs ∈ obstacles, hiding_candidate self enemy obs =
      some (find_hiding_spot self enemy obstacles) := by
  unfold find_hiding_spot
  rcases hiding_fold_result self enemy obstacles none with
    h | ⟨p, d, heq, obs, hobs, hc⟩
  · rw [h]
    exact Or.inl rfl
  · rw [heq]
    exact Or.inr ⟨obs, hobs, hc⟩

/-- Counterexample to C1 as stated: with the single (non-empty) obstacle of
edge 8 at `(3,4)`, opponent at `(0,0)` and agent at `(1,1)` (size 2), the
hiding spot `(33/5, 44/5)` lies on the diagonal ray at Euclidean clearance 6
from the center yet overlaps the obstacle on both axes (per-axis offsets
`18/5` and `24/5` are below the half-extent sum `5`), so it satisfies
`collides_with_obstacles` with the agent's own size. -/
theorem find_hiding_spot_blocked_cex :
    collides_with_obstacles
      (find_hiding_spot (mkRobot (1, 1) (1, 0, 0)) (mkRobot (0, 0) (0, 0, 1))
        [⟨((3 : ℝ), (4 : ℝ)), 8⟩])
      [⟨((3 : ℝ), (4 : ℝ)), 8⟩] (mkRobot (1, 1) (1, 0, 0)).size := by
  have h5 : norm ((⟨((3 : ℝ), (4 : ℝ)), 8⟩ : Obstacle).position.1 -
        (mkRobot (0, 0) (0, 0, 1)).position.1,
      (⟨((3 : ℝ), (4 : ℝ)), 8⟩ : Obstacle).position.2 -
        (mkRobot (0, 0) (0, 0, 1)).position.2) = 5 := by
    have e : ((⟨((3 : ℝ), (4 : ℝ)), 8⟩ : Obstacle).position.1 -
          (mkRobot (0, 0) (0, 0, 1)).position.1,
        (⟨((3 : ℝ), (4 : ℝ)), 8⟩ : Obstacle).position.2 -
          (mkRobot (0, 0) (0, 0, 1)).position.2) = ((3 : ℝ), (4 : ℝ)) := by
      norm_num [mkRobot]
    rw [e]
    exact norm_eval 3 4 5 (by norm_num) (by norm_num)
  rw [find_hiding_spot_singleton (mkRobot (1, 1) (1, 0, 0))
    (mkRobot (0, 0) (0, 0, 1)) ⟨((3 : ℝ), (4 : ℝ)), 8⟩ _
    (hiding_candidate_eval (mkRobot (1, 1) (1, 0, 0))
      (mkRobot (0, 0) (0, 0, 1)) ⟨((3 : ℝ), (4 : ℝ)), 8⟩ 5 (by norm_num) h5)]
  norm_num [collides_with_obstacles, mkRobot, abs_lt]

/-- Evaluation rule for `step` with no obstacles once the distance to the
target is known to exceed the epsilon: the move is always committed. -/
theorem step_nil_eval (r : Robot) (t : Point) (d : ℝ) (h01 : 0.01 < d)
    (hd : norm (t.1 - r.position.1, t.2 - r.position.2) = d) :
    step r t [] = { r with position :=
      (r.position.1 + (t.1 - r.position.1) / d * r.speed,
       r.position.2 + (t.2 - r.position.2) / d * r.speed) } := by
  unfold step
  rw [hd, if_pos h01, if_pos (collides_nil _ _)]

/-- Evaluation rule for `update` with no obstacles: the robot heads straight
for the enemy's position. -/
theorem update_nil_eval (r e : Robot) (d : ℝ) (h01 : 0.01 < d)
    (hd : norm (e.position.1 - r.position.1, e.position.2 - r.position.2) = d) :
    update r e [] = { r with position :=
      (r.position.1 + (e.position.1 - r.position.1) / d * r.speed,
       r.position.2 + (e.position.2 - r.position.2) / d * r.speed) } := by
  unfold update
  rw [decide_target_nil]
  exact step_nil_eval r e.position d h01 hd

/-- C2 (amended): within one tick the first robot's update is computed from
the opponent's pre-tick position (it agrees with the pre-tick-snapshot
semantics), while the second robot's update reads the first robot's
already-updated position; the whole tick agrees with the snapshot semantics
when the first robot's update happens to leave it unchanged, but not in
general. -/
theorem tick_move_first_snapshot_second_sequential (r1 r2 : Robot)
    (obstacles : List Obstacle) :
    (tick_move r1 r2 obstacles).1 = (tick_move_snapshot r1 r2 obstacles).1 ∧
    (tick_move r1 r2 obstacles).2 =
      update r2 (update r1 r2 obstacles) obstacles ∧
    (update r1 r2 obstacles = r1 →
      tick_move r1 r2 obstacles = tick_move_snapshot r1 r2 obstacles) := by
  refine ⟨rfl, rfl, fun h => ?_⟩
  unfold tick_move tick_move_snapshot
  rw [h]

/-- Counterexample to C2 as stated: robots at `(0,0)` and `(1/10, 0)` with no
obstacles. Sequentially, robot 1 overshoots to `(1/5, 0)` and robot 2 then
chases the updated position, ending at `(3/10, 0)`; under the pre-tick
snapshot semantics robot 2 would retreat from `(0,0)` to `(-1/10, 0)`. The
second robot's update therefore does not read the pre-tick position. -/
theorem tick_move_not_snapshot_cex :
    (tick_move (mkRobot (0, 0) (1, 0, 0)) (mkRobot ((1 : ℝ) / 10, 0) (0, 0, 1))
        []).2.position ≠
    (tick_move_snapshot (mkRobot (0, 0) (1, 0, 0))
        (mkRobot ((1 : ℝ) / 10, 0) (0, 0, 1)) []).2.position := by
  have hd1 : norm ((mkRobot ((1 : ℝ) / 10, 0) (0, 0, 1)).position.1 -
        (mkRobot (0, 0) (1, 0, 0)).position.1,
      (mkRobot ((1 : ℝ) / 10, 0) (0, 0, 1)).position.2 -
        (mkRobot (0, 0) (1, 0, 0)).position.2) = 1 / 10 := by
    have e : ((mkRobot ((1 : ℝ) / 10, 0) (0, 0, 1)).position.1 -
          (mkRobot (0, 0) (1, 0, 0)).position.1,
        (mkRobot ((1 : ℝ) / 10, 0) (0, 0, 1)).position.2 -
          (mkRobot (0, 0) (1, 0, 0)).position.2) = ((1 : ℝ) / 10, (0 : ℝ)) := by
      norm_num [mkRobot]
    rw [e]
    exact norm_eval (1 / 10) 0 (1 / 10) (by norm_num) (by norm_num)
  have h1 : update (mkRobot (0, 0) (1, 0, 0))
      (mkRobot ((1 : ℝ) / 10, 0) (0, 0, 1)) [] =
      { mkRobot (0, 0) (1, 0, 0) with position := ((1 : ℝ) / 5, 0) } := by
    rw [update_nil_eval _ _ (1 / 10) (by norm_num) hd1]
    norm_num [mkRobot]
  have hd2 : norm (({ mkRobot (0, 0) (1, 0, 0) with
          position := ((1 : ℝ) / 5, 0) } : Robot).position.1 -
        (mkRobot ((1 : ℝ) / 10, 0) (0, 0, 1)).position.1,
      ({ mkRobot (0, 0) (1, 0, 0) with
          position := ((1 : ℝ) / 5, 0) } : Robot).position.2 -
        (mkRobot ((1 : ℝ) / 10, 0) (0, 0, 1)).position.2) = 1 / 10 := by
    have e : (({ mkRobot (0, 0) (1, 0, 0) with
            position := ((1 : ℝ) / 5, 0) } : Robot).position.1 -
          (mkRobot ((1 : ℝ) / 10, 0) (0, 0, 1)).position.1,
        ({ mkRobot (0, 0) (1, 0, 0) with
            position := ((1 : ℝ) / 5, 0) } : Robot).position.2 -
          (mkRobot ((1 : ℝ) / 10, 0) (0, 0, 1)).position.2) =
        ((1 : ℝ) / 10, (0 : ℝ)) := by
      norm_num [mkRobot]
    rw [e]
    exact norm_eval (1 / 10) 0 (1 / 10) (by norm_num) (by norm_num)
  have h2 : update (mkRobot ((1 : ℝ) / 10, 0) (0, 0, 1))
      { mkRobot (0, 0) (1, 0, 0) with position := ((1 : ℝ) / 5, 0) } [] =
      { mkRobot ((1 : ℝ) / 10, 0) (0, 0, 1) with
        position := ((3 : ℝ) / 10, 0) } := by
    rw [update_nil_eval _ _ (1 / 10) (by norm_num) hd2]
    norm_num [mkRobot]
  have hd3 : norm ((mkRobot (0, 0) (1, 0, 0)).position.1 -
        (mkRobot ((1 : ℝ) / 10, 0) (0, 0, 1)).position.1,
      (mkRobot (0, 0) (1, 0, 0)).position.2 -
        (mkRobot ((1 : ℝ) / 10, 0) (0, 0, 1)).position.2) = 1 / 10 := by
    have e : ((mkRobot (0, 0) (1, 0, 0)).position.1 -
          (mkRobot ((1 : ℝ) / 10, 0) (0, 0, 1)).position.1,
        (mkRobot (0, 0) (1, 0, 0)).position.2 -
          (mkRobot ((1 : ℝ) / 10, 0) (0, 0, 1)).position.2) =
        (-(1 : ℝ) / 10, (0 : ℝ)) := by
      norm_num [mkRobot]
    rw [e]
    exact norm_eval (-1 / 10) 0 (1 / 10) (by norm_num) (by norm_num)
  have h3 : update (mkRobot ((1 : ℝ) / 10, 0) (0, 0, 1))
      (mkRobot (0, 0) (1, 0, 0)) [] =
      { mkRobot ((1 : ℝ) / 10, 0) (0, 0, 1) with
        position := (-(1 : ℝ) / 10, 0) } := by
    rw [update_nil_eval _ _ (1 / 10) (by norm_num) hd3]
    norm_num [mkRobot]
  unfold tick_move tick_move_snapshot
  rw [h1, h2, h3]
  intro hcontra
  have := congrArg Prod.fst hcontra
  norm_num at this

/-- Witness for C10: a robot standing at the center of the obstacle of
edge 4 at `(5,0)` cannot see an opponent at `(10,0)`. -/
theorem inside_obstacle_never_sees_witness :
    ¬ can_see (mkRobot (5, 0) (1, 0, 0)) (mkRobot (10, 0) (0, 0, 1))
      [⟨((5 : ℝ), (0 : ℝ)), 4⟩] :=
  inside_obstacle_never_sees _ _ _ ⟨((5 : ℝ), (0 : ℝ)), 4⟩ (by simp)
    (by norm_num [mkRobot]) (by norm_num [mkRobot])
    (by norm_num [mkRobot]) (by norm_num [mkRobot])

/-- C7: for a single obstacle, `collides_with_obstacles` holds iff on both
axes the absolute center distance is strictly below the sum of the two
half-extents; squares whose edges exactly touch do not count as overlapping
(witnessed by the touching pair at centers `(3,0)` and `(0,0)` with edges 2
and 4). -/
theorem overlaps_iff_strict_axis_overlap :
    (∀ (pos : Point) (obs : Obstacle) (obj_size : ℝ),
      collides_with_obstacles pos [obs] obj_size ↔
        (|pos.1 - obs.position.1| < obs.size / 2 + obj_size / 2 ∧
         |pos.2 - obs.position.2| < obs.size / 2 + obj_size / 2)) ∧
    ¬ collides_with_obstacles ((3 : ℝ), (0 : ℝ))
        [⟨((0 : ℝ), (0 : ℝ)), 4⟩] 2 := by
  constructor
  · intro pos obs obj_size
    simp [collides_with_obstacles]
  · norm_num [collides_with_obstacles]

/-- C8: when the Euclidean distance from the robot's position to the target
is at or below the epsilon `0.01`, `step` leaves the robot (in particular its
position) exactly unchanged. -/
theorem step_at_target_unchanged (r : Robot) (target : Point)
    (obstacles : List Obstacle)
    (h : norm (target.1 - r.position.1, target.2 - r.position.2) ≤ 0.01) :
    step r target obstacles = r := by
  unfold step
  rw [if_neg (not_lt.mpr h)]

/-- Witness for C8: a robot at `(3,4)` told to step to its own position. -/
theorem step_at_target_unchanged_witness :
    step (mkRobot (3, 4) (1, 0, 0)) (3, 4) [] = mkRobot (3, 4) (1, 0, 0) :=
  step_at_target_unchanged _ _ _ (by
    norm_num [mkRobot, norm, Real.sqrt_zero])

/-- C3: a robot whose position clears every obstacle still clears every
obstacle after `step`, for any target: the move is committed only when the
candidate position passes `collides_with_obstacles`, and otherwise the
position is left entirely unchanged. -/
theorem step_preserves_obstacle_clearance (r : Robot) (target : Point)
    (obstacles : List Obstacle)
    (h : ¬ collides_with_obstacles r.position obstacles r.size) :
    ¬ collides_with_obstacles (step r target obstacles).position obstacles
      r.size := by
  unfold step
  split_ifs with h1 h2
  · exact h
  · exact h2
  · exact h

/-- Witness for C3: a robot stepping toward `(5,5)` in an empty field. -/
theorem step_preserves_obstacle_clearance_witness :
    ¬ collides_with_obstacles
      (step (mkRobot (0, 0) (1, 0, 0)) (5, 5) []).position []
      (mkRobot (0, 0) (1, 0, 0)).size :=
  step_preserves_obstacle_clearance _ _ _ (collides_nil _ _)

/-- C9: with an empty obstacle list, `can_see` holds for every pair of robots
and `decide_target` returns the opponent's position exactly; in particular a
robot at `(0,0)` facing an opponent at `(10,0)` targets exactly `(10,0)`. -/
theorem can_see_empty_and_decide_target :
    (∀ r1 r2 : Robot,
      can_see r1 r2 [] ∧ decide_target r1 r2 [] = r2.position) ∧
    decide_target (mkRobot (0, 0) (1, 0, 0)) (mkRobot (10, 0) (0, 0, 1)) [] =
      ((10 : ℝ), (0 : ℝ)) := by
  refine ⟨fun r1 r2 => ⟨can_see_nil r1 r2, decide_target_nil r1 r2⟩, ?_⟩
  rw [decide_target_nil]
  rfl

/-- The position delivered by `get_random_position` never collides with an
obstacle (for the robot footprint `2.0`): it is the first such draw. -/
theorem get_random_position_valid (samples : ℕ → Point)
    (obstacles : List Obstacle)
    (h : ∃ n, ¬ collides_with_obstacles (samples n) obstacles 2.0) :
    ¬ collides_with_obstacles (get_random_position samples obstacles h)
      obstacles 2.0 :=
  Nat.find_spec h

/-- A constant stream at the origin is a valid draw source for an empty
obstacle field. -/
theorem const_origin_valid :
    ∃ n : ℕ, ¬ collides_with_obstacles
      ((fun _ : ℕ => ((0 : ℝ), (0 : ℝ))) n) [] 2.0 :=
  ⟨0, collides_nil _ _⟩

/-- C6: when the robots' Euclidean distance is strictly below the first
robot's `size`, both are repositioned to independently drawn positions, each
clearing `collides_with_obstacles` for the robot footprint, with color,
speed and size untouched; when the distance is at least the first robot's
`size`, nothing is changed. -/
theorem collision_respawn_rule (r1 r2 : Robot) (obstacles : List Obstacle)
    (s1 s2 : ℕ → Point)
    (h1 : ∃ n, ¬ collides_with_obstacles (s1 n) obstacles 2.0)
    (h2 : ∃ n, ¬ collides_with_obstacles (s2 n) obstacles 2.0) :
    (norm (r1.position.1 - r2.position.1, r1.position.2 - r2.position.2) <
        r1.size →
      ¬ collides_with_obstacles
        ((handle_collision r1 r2 obstacles s1 s2 h1 h2).1.position)
        obstacles 2.0 ∧
      ¬ collides_with_obstacles
        ((handle_collision r1 r2 obstacles s1 s2 h1 h2).2.position)
        obstacles 2.0 ∧
      (handle_collision r1 r2 obstacles s1 s2 h1 h2).1.color = r1.color ∧
      (handle_collision r1 r2 obstacles s1 s2 h1 h2).1.speed = r1.speed ∧
      (handle_collision r1 r2 obstacles s1 s2 h1 h2).1.size = r1.size ∧
      (handle_collision r1 r2 obstacles s1 s2 h1 h2).2.color = r2.color ∧
      (handle_collision r1 r2 obstacles s1 s2 h1 h2).2.speed = r2.speed ∧
      (handle_collision r1 r2 obstacles s1 s2 h1 h2).2.size = r2.size) ∧
    (r1.size ≤
        norm (r1.position.1 - r2.position.1, r1.position.2 - r2.position.2) →
      handle_collision r1 r2 obstacles s1 s2 h1 h2 = (r1, r2)) := by
  constructor
  · intro hlt
    unfold handle_collision
    rw [if_pos hlt]
    exact ⟨get_random_position_valid s1 obstacles h1,
           get_random_position_valid s2 obstacles h2,
           rfl, rfl, rfl, rfl, rfl, rfl⟩
  · intro hge
    unfold handle_collision
    rw [if_neg (not_lt.mpr hge)]

/-- Witness for C6: two robots at the same origin (distance 0 below size 2)
in an empty field; the respawned first robot's position is unblocked. -/
theorem collision_respawn_rule_witness :
    ¬ collides_with_obstacles
      ((handle_collision (mkRobot (0, 0) (1, 0, 0)) (mkRobot (0, 0) (0, 0, 1))
          [] (fun _ => ((0 : ℝ), (0 : ℝ))) (fun _ => ((0 : ℝ), (0 : ℝ)))
          const_origin_valid const_origin_valid).1.position) [] 2.0 :=
  ((collision_respawn_rule (mkRobot (0, 0) (1, 0, 0))
      (mkRobot (0, 0) (0, 0, 1)) [] _ _
      const_origin_valid const_origin_valid).1
    (by norm_num [mkRobot, norm, Real.sqrt_zero])).1

end

end RobotHunt
